import Mathlib

/-!
Shallow embedding of the GoodWe AA55 inverter integration:
the AA55 frame transport/codec (`Inverter._execute_aa55_command`),
payload decoders (`_query_id_info`, `_query_running_info`,
`get_running_info` from `inverter.py`), and the resilient polling
layer (`GoodweAA55UpdateCoordinator` from
`custom_components/goodwe_aa55/coordinator.py`).

Bytes are modelled as `Nat` (each in 0..255 on real traffic), byte
strings as `List Nat`, Python `float` division results as `ℚ`.
-/

namespace AA55

/-- The failure kinds of the transport/codec layer.  In the code every
one of these is raised as a `RequestFailedException`; the constructors
record which check failed (timeout on first read, short/stalled
response, header mismatch, trailing-checksum mismatch). -/
inductive Failure where
  | connectionTimeout
  | incompleteResponse
  | headerMismatch
  | checksumMismatch
deriving DecidableEq, Repr

/-- Python slice `l[a:b]` (with the usual truncation on short lists). -/
def slice (l : List Nat) (a b : Nat) : List Nat :=
  (l.take b).drop a

/-- `int(bytes.hex(), 16)`: big-endian value of a byte string. -/
def bigEndianNat (l : List Nat) : Nat :=
  l.foldl (fun acc b => 256 * acc + b) 0

/-- The expected response header computed at the top of
`Inverter._execute_aa55_command`:
`message[0:2] + message[3:4] + message[2:3] + message[4:5] + (message[5]+128).to_bytes()`. -/
def expectedHeader (message : List Nat) : List Nat :=
  slice message 0 2 ++ slice message 3 4 ++ slice message 2 3 ++ slice message 4 5
    ++ [message.getD 5 0 + 128]

/-- The response-header transformation exactly as spec §4.2 words it:
keep the 2-byte sync marker, swap the destination- and source-address
bytes, keep the control byte, set the high bit of the function-code
byte. -/
def specResponseHeader (message : List Nat) : List Nat :=
  slice message 0 2 ++
    [message.getD 3 0, message.getD 2 0, message.getD 4 0,
     Nat.lor (message.getD 5 0) 128]

/-- The identity-query command bytes sent by `_query_id_info`. -/
def idCommand : List Nat := [0xaa, 0x55, 0xc0, 0x7f, 0x01, 0x02, 0x00, 0x02, 0x41]

/-- The running-info command bytes sent by `_query_running_info`. -/
def runningCommand : List Nat := [0xaa, 0x55, 0xc0, 0x7f, 0x01, 0x01, 0x00, 0x02, 0x40]

/-- `calculatedCRC`: arithmetic sum of every response byte except the
final two (`for byte in response[0:-2]: calculatedCRC += byte`). -/
def crcCalc (response : List Nat) : Nat :=
  (response.take (response.length - 2)).sum

/-- `receivedCRC = int(response[-2:].hex(), 16)`: big-endian value of
the final two bytes. -/
def crcRecv (response : List Nat) : Nat :=
  bigEndianNat (response.drop (response.length - 2))

/-- The accumulation loop of `_execute_aa55_command`:
`while len(response) != expectedResponseLength: response += cs.recv(150)`.
`chunks` is the sequence of datagrams the socket would deliver; running
out of chunks models the receive timeout inside the loop, which the code
raises as a "stopped sending data" `RequestFailedException`. -/
def assemble (expectedLen : Nat) (acc : List Nat) (chunks : List (List Nat)) :
    Except Failure (List Nat) :=
  if acc.length = expectedLen then .ok acc
  else
    match chunks with
    | [] => .error .incompleteResponse
    | c :: rest => assemble expectedLen (acc ++ c) rest

/-- The tail of `_execute_aa55_command` once the full response is
assembled: the CRC check (`if calculatedCRC != receivedCRC: raise`) and
the payload slice `response[7:-2]`. -/
def finishResponse (response : List Nat) : Except Failure (List Nat) :=
  if crcCalc response ≠ crcRecv response then .error .checksumMismatch
  else .ok ((response.take (response.length - 2)).drop 7)

/-- `Inverter._execute_aa55_command`, as a function of the datagrams the
socket delivers.  An empty `chunks` models the timeout on the very first
`recv` ("the inverter did not respond").  A raised failure inside the
loop propagates, which `Except.bind` models.  On success it returns the
payload `response[7:-2]`. -/
def executeCommand (message : List Nat) (chunks : List (List Nat)) :
    Except Failure (List Nat) :=
  match chunks with
  | [] => .error .connectionTimeout
  | c0 :: rest =>
    if c0.length < 9 then .error .incompleteResponse
    else if slice c0 0 6 ≠ expectedHeader message then .error .headerMismatch
    else (assemble (7 + c0.getD 6 0 + 2) c0 rest).bind finishResponse

/-- The decoded running snapshot of `_query_running_info`.  Fields
produced by Python `/` are rationals; `pac`, `work_mode` and
`running_hours` are plain `int(...)` reads. -/
structure RunInfo where
  work_mode : Nat
  pac : Nat
  e_today : ℚ
  e_total : ℚ
  l1_voltage : ℚ
  l1_frequency : ℚ
  temperature : ℚ
  running_hours : Nat
deriving DecidableEq, Repr

/-- The payload-parsing tail of `Inverter._query_running_info`:
each field is `int(payload[a:b].hex(), 16)` scaled by the code's
divisor. -/
def queryRunningInfoParse (payload : List Nat) : RunInfo :=
  { l1_voltage := (bigEndianNat (slice payload 8 10) : ℚ) / 10
    l1_frequency := (bigEndianNat (slice payload 12 14) : ℚ) / 100
    pac := bigEndianNat (slice payload 14 16)
    work_mode := bigEndianNat (slice payload 16 18)
    temperature := (bigEndianNat (slice payload 18 20) : ℚ) / 10
    e_total := (bigEndianNat (slice payload 24 28) : ℚ) / 10
    running_hours := bigEndianNat (slice payload 30 32)
    e_today := (bigEndianNat (slice payload 44 46) : ℚ) / 10 }

/-- Big-endian read of `w` bytes starting at byte offset `off`, the way
the spec's divisor table describes a field location. -/
def beAt (payload : List Nat) (off w : Nat) : Nat :=
  bigEndianNat ((List.range w).map (fun i => payload.getD (off + i) 0))

/-- The running snapshot as the spec's divisor table describes it:
the big-endian integer at each tabulated offset divided by the
tabulated divisor. -/
def divisorTableParse (payload : List Nat) : RunInfo :=
  { l1_voltage := (beAt payload 8 2 : ℚ) / 10
    l1_frequency := (beAt payload 12 2 : ℚ) / 100
    pac := beAt payload 14 2
    work_mode := beAt payload 16 2
    temperature := (beAt payload 18 2 : ℚ) / 10
    e_total := (beAt payload 24 4 : ℚ) / 10
    running_hours := beAt payload 30 2
    e_today := (beAt payload 44 2 : ℚ) / 10 }

/-- The canned running-info payload returned in mock mode by
`_query_running_info`. -/
def cannedRunningPayload : List Nat :=
  [6, 174, 0, 0, 0, 8, 0, 0, 9, 77, 0, 5, 19, 140, 0, 137, 0, 1, 0, 241,
   0, 0, 0, 0, 0, 0, 122, 144, 0, 0, 27, 252, 20, 31, 0, 0, 1, 149, 1, 64,
   14, 221, 0, 6, 0, 0, 24, 1, 30, 10, 29, 5, 0, 235, 0, 61, 0, 14, 0, 0]

/-- Python `str.rstrip()` restricted to ASCII: drop trailing whitespace
characters (space, tab, LF, VT, FF, CR). -/
def pyWhitespace (c : Char) : Bool :=
  c.toNat = 32 || c.toNat = 9 || c.toNat = 10 || c.toNat = 11 ||
  c.toNat = 12 || c.toNat = 13

/-- `bytes.decode("ascii").rstrip()` on a byte string. -/
def asciiRstrip (bytes : List Nat) : String :=
  String.mk (((bytes.map Char.ofNat).reverse.dropWhile pyWhitespace).reverse)

/-- The payload-parsing tail of `Inverter._query_id_info`:
`model = payload[5:15].decode("ascii").rstrip()`,
`serial_number = payload[31:47].decode("ascii").rstrip()`. -/
def queryIdInfoParse (payload : List Nat) : String × String :=
  (asciiRstrip (slice payload 5 15), asciiRstrip (slice payload 31 47))

/-- The canned identity payload returned in mock mode by
`_query_id_info`. -/
def cannedIdPayload : List Nat :=
  [32, 32, 32, 32, 32, 71, 87, 49, 53, 48, 48, 45, 88, 83, 32, 32, 32, 32,
   32, 32, 32, 32, 32, 32, 32, 32, 32, 32, 32, 32, 32, 53, 49, 53, 48, 48,
   83, 83, 88, 50, 49, 49, 87, 48, 52, 49, 51, 32, 32, 32, 32, 32, 32, 32,
   32, 32, 32, 32, 32, 32, 32, 32, 32, 6]

/-- `InverterStatus(code).name`: the `InverterStatus` enum of
`inverter.py`; `none` models the `ValueError` Python raises for a code
outside the enumeration. -/
def inverterStatusName (code : Int) : Option String :=
  if code = -1 then some "Offline"
  else if code = 0 then some "Waiting"
  else if code = 1 then some "Online"
  else if code = 2 then some "Error"
  else none

/-- A non-`RequestFailedException` error escaping `get_running_info`
(the `InverterStatus(...)` lookup outside the `try` block raises
`ValueError` on an unknown work-mode code). -/
inductive PyError where
  | valueError
deriving DecidableEq, Repr

/-- The dictionary returned by `Inverter.get_running_info` in
`inverter.py` on success (note: no `running_hours` key). -/
structure RunningInfoDict where
  work_mode : String
  pac : Nat
  e_today : ℚ
  e_total : ℚ
  l1_voltage : ℚ
  l1_frequency : ℚ
  temperature : ℚ
deriving DecidableEq, Repr

/-- `Inverter.get_running_info` of `inverter.py`, as a function of the
outcome of `self._query_running_info()`.  A decode failure
(`RequestFailedException`, modelled by `.error e`) is caught by the
bare `except:` clause, which prints a message and returns `None`; no
classified exception reaches the caller.  (The `except TimeoutError`
branch is unreachable for a real fetch, since `_execute_aa55_command`
converts every socket timeout into a `RequestFailedException`.)  On
success the status lookup `InverterStatus(self.work_mode)` happens
outside the `try` and can raise `ValueError`. -/
def get_running_info (fetch : Except Failure RunInfo) :
    Except PyError (Option RunningInfoDict) :=
  match fetch with
  | .error _ => .ok none
  | .ok info =>
    match inverterStatusName info.work_mode with
    | none => .error .valueError
    | some ws =>
      .ok (some
        { work_mode := ws
          pac := info.pac
          e_today := info.e_today
          e_total := info.e_total
          l1_voltage := info.l1_voltage
          l1_frequency := info.l1_frequency
          temperature := info.temperature })

/-- The sensor field names keyed in the coordinator's dictionaries. -/
inductive Field where
  | work_mode
  | pac
  | e_today
  | e_total
  | l1_voltage
  | l1_frequency
  | temperature
  | running_hours
deriving DecidableEq, Repr

/-- A dictionary value: the coordinator's dicts hold the work-mode
status string and rational/integer readings. -/
inductive Val where
  | str (s : String)
  | num (q : ℚ)
deriving DecidableEq, Repr

/-- Python truthiness of a fetched value (`return val if val else ...`):
`None`, `0`, `0.0` and `""` are falsy. -/
def truthyVal : Option Val → Bool
  | none => false
  | some (.str s) => s ≠ ""
  | some (.num q) => q ≠ 0

/-- A coordinator data dictionary over the fixed sensor keys; `none`
models both an absent key and a key mapped to Python `None` (the two
are indistinguishable through `dict.get`, and every dict the
coordinator publishes holds a non-`None` `work_mode`, so dict
truthiness is also preserved). -/
structure Dict where
  work_mode : Option Val := none
  pac : Option Val := none
  e_today : Option Val := none
  e_total : Option Val := none
  l1_voltage : Option Val := none
  l1_frequency : Option Val := none
  temperature : Option Val := none
  running_hours : Option Val := none
deriving DecidableEq, Repr

/-- `d.get(field)`. -/
def Dict.get (d : Dict) : Field → Option Val
  | .work_mode => d.work_mode
  | .pac => d.pac
  | .e_today => d.e_today
  | .e_total => d.e_total
  | .l1_voltage => d.l1_voltage
  | .l1_frequency => d.l1_frequency
  | .temperature => d.temperature
  | .running_hours => d.running_hours

/-- `d[field] = v`. -/
def Dict.set (d : Dict) : Field → Option Val → Dict
  | .work_mode, v => { d with work_mode := v }
  | .pac, v => { d with pac := v }
  | .e_today, v => { d with e_today := v }
  | .e_total, v => { d with e_total := v }
  | .l1_voltage, v => { d with l1_voltage := v }
  | .l1_frequency, v => { d with l1_frequency := v }
  | .temperature, v => { d with temperature := v }
  | .running_hours, v => { d with running_hours := v }

/-- Python truthiness of a dict: non-empty (some key present). -/
def Dict.truthy (d : Dict) : Bool :=
  d.work_mode.isSome || d.pac.isSome || d.e_today.isSome || d.e_total.isSome ||
  d.l1_voltage.isSome || d.l1_frequency.isSome || d.temperature.isSome ||
  d.running_hours.isSome

/-- The empty dict `{}` that `_last_data` starts as. -/
def emptyDict : Dict := {}

/-- Modelled from the spec: the snapshot dictionary a successful
`get_running_info` of the integration's inverter module
(`custom_components/goodwe_aa55/inverter.py`, absent from the sources;
only `coordinator.py` calls it) hands to the coordinator — the §3
RunningSnapshot, with `work_mode` already rendered as the status
string and all eight fields present. -/
def runInfoDict (ws : String) (info : RunInfo) : Dict :=
  { work_mode := some (.str ws)
    pac := some (.num info.pac)
    e_today := some (.num info.e_today)
    e_total := some (.num info.e_total)
    l1_voltage := some (.num info.l1_voltage)
    l1_frequency := some (.num info.l1_frequency)
    temperature := some (.num info.temperature)
    running_hours := some (.num info.running_hours) }

/-- Outcome of one `await self.inverter.get_running_info()` call as the
coordinator observes it: a snapshot dict, a `RequestFailedException`
(transient), or an `InverterError` (hard). -/
inductive FetchResult where
  | success (snap : Dict)
  | transient (e : Failure)
  | hard
deriving DecidableEq, Repr

/-- Coordinator state: `self.data` (the published dict, `None` before
the first refresh), `self._last_data`, and the inverter's
`consecutive_com_failures` streak counter.  The counter lives on the
integration's inverter object; modelled from the spec (reset to 0 on
any success, incremented by exactly 1 per transient failure, so the
value the coordinator compares with 3 is the already-incremented
streak). -/
structure CoordState where
  data : Option Dict
  lastData : Dict
  failures : Nat
deriving DecidableEq, Repr

/-- The state of a freshly constructed coordinator. -/
def initCoordState : CoordState :=
  { data := none, lastData := emptyDict, failures := 0 }

/-- The synthetic offline dictionary the coordinator publishes on the
3rd consecutive failure (`work_mode=InverterStatus(-1).name`, `pac=0`,
`None` electrical readings, cumulative counters copied from
`self._last_data`). -/
def syntheticOffline (last : Dict) : Dict :=
  { work_mode := some (.str "Offline")
    pac := some (.num 0)
    e_today := last.get .e_today
    e_total := last.get .e_total
    l1_voltage := none
    l1_frequency := none
    temperature := none
    running_hours := last.get .running_hours }

/-- The coordinator's `if self.data: self._last_data = self.data`
guard at the top of `_async_update_data`. -/
def nextLastData (st : CoordState) : Dict :=
  match st.data with
  | some d => if d.truthy then d else st.lastData
  | none => st.lastData

/-- `GoodweAA55UpdateCoordinator._async_update_data`, one poll cycle:
first `if self.data: self._last_data = self.data`; then the fetch; on
success the returned dict becomes `self.data`; on
`RequestFailedException` the (incremented) streak is compared with 3
and either `self._last_data` or the synthetic offline dict is
published; on `InverterError` the method raises `UpdateFailed`, so
`self.data` is left unchanged and the streak is untouched. -/
def asyncUpdateData (st : CoordState) (res : FetchResult) : CoordState :=
  let last1 := nextLastData st
  match res with
  | .success snap => { data := some snap, lastData := last1, failures := 0 }
  | .transient _ =>
    let n := st.failures + 1
    if n < 3 then { data := some last1, lastData := last1, failures := n }
    else { data := some (syntheticOffline last1), lastData := last1, failures := n }
  | .hard => { data := st.data, lastData := last1, failures := st.failures }

/-- A run of `k` consecutive transient-failure poll cycles. -/
def iterTransient (st : CoordState) : Nat → CoordState
  | 0 => st
  | k + 1 => iterTransient (asyncUpdateData st (.transient .connectionTimeout)) k

/-- A whole poll history applied to a coordinator state. -/
def runCycles (st : CoordState) (rs : List FetchResult) : CoordState :=
  rs.foldl asyncUpdateData st

/-- `GoodweAA55UpdateCoordinator.total_sensor_value`, given the dict
`self.data` currently holds:
`val = self.data.get(sensor); return val if val else self._last_data.get(sensor)`. -/
def totalSensorValue (data : Dict) (lastData : Dict) (f : Field) : Option Val :=
  let val := data.get f
  if truthyVal val then val else lastData.get f

/-- `GoodweAA55UpdateCoordinator.reset_sensor`:
`self._last_data[sensor] = 0; self.data[sensor] = 0`.  When `self.data`
is still `None` the second assignment raises `TypeError`, modelled by
`none`. -/
def resetSensor (st : CoordState) (f : Field) : Option CoordState :=
  match st.data with
  | none => none
  | some d =>
    some { st with
      lastData := st.lastData.set f (some (.num 0))
      data := some (d.set f (some (.num 0))) }

/-- Modelled from the spec: the §3 PollState of the integration's
inverter module (absent from the sources), with
`consecutive_failure_count` a (mathematical) integer so that
non-negativity is a provable invariant: reset to 0 on any success,
incremented by exactly 1 per transient failure, untouched by a hard
failure. -/
structure PollState where
  lastKnown : Option Dict
  consecutiveFailureCount : Int
deriving DecidableEq, Repr

/-- The PollState before any poll cycle. -/
def initPollState : PollState :=
  { lastKnown := none, consecutiveFailureCount := 0 }

/-- Modelled from the spec: one poll cycle's effect on the PollState. -/
def pollStep (s : PollState) : FetchResult → PollState
  | .success snap => { lastKnown := some snap, consecutiveFailureCount := 0 }
  | .transient _ =>
    { s with consecutiveFailureCount := s.consecutiveFailureCount + 1 }
  | .hard => s

/-- The PollState reached from start-up by a poll history. -/
def pollRun (rs : List FetchResult) : PollState :=
  rs.foldl pollStep initPollState

/-- A concrete well-formed response frame for the identity command:
expected header `aa 55 7f c0 01 82`, payload length 1, payload `[5]`,
byte-sum checksum `711 = 0x02c7`. -/
def sampleResponse : List Nat :=
  [0xaa, 0x55, 0x7f, 0xc0, 0x01, 0x82, 1, 5, 2, 199]

/-- A concrete running snapshot with a nonzero `e_total`, used to
instantiate the polling-layer theorems. -/
def sampleInfo : RunInfo :=
  { work_mode := 1, pac := 100, e_today := 2, e_total := 5,
    l1_voltage := 230, l1_frequency := 50, temperature := 25,
    running_hours := 10 }

/-- A concrete running snapshot whose readings are all zero (a waking
inverter may legitimately report `e_total = 0`). -/
def zeroRunInfo : RunInfo :=
  { work_mode := 0, pac := 0, e_today := 0, e_total := 0,
    l1_voltage := 0, l1_frequency := 0, temperature := 0,
    running_hours := 0 }

/-! ### Theorems -/

theorem getD_set_self (l : List Nat) (i v : Nat) (h : i < l.length) :
    (l.set i v).getD i 0 = v := by
  induction l generalizing i with
  | nil => simp at h
  | cons x xs ih =>
    cases i with
    | zero => rfl
    | succ j => exact ih j (by simpa using h)

theorem getD_set_ne (l : List Nat) (i j v : Nat) (h : i ≠ j) :
    (l.set i v).getD j 0 = l.getD j 0 := by
  induction l generalizing i j with
  | nil => rfl
  | cons x xs ih =>
    cases i with
    | zero =>
      cases j with
      | zero => exact absurd rfl h
      | succ k => rfl
    | succ m =>
      cases j with
      | zero => rfl
      | succ k => exact ih m k (fun hh => h (by omega))

theorem take_set_comm (l : List Nat) (i n v : Nat) :
    (l.set i v).take n = (l.take n).set i v := by
  induction l generalizing i n with
  | nil => simp
  | cons x xs ih =>
    cases n with
    | zero => simp
    | succ m =>
      cases i with
      | zero => simp
      | succ j =>
        simp only [List.set_cons_succ, List.take_succ_cons]
        rw [ih j m]

theorem drop_set_of_lt (l : List Nat) (i n v : Nat) (h : i < n) :
    (l.set i v).drop n = l.drop n := by
  induction l generalizing i n with
  | nil => rfl
  | cons x xs ih =>
    cases n with
    | zero => omega
    | succ m =>
      cases i with
      | zero => simp
      | succ j =>
        simp only [List.set_cons_succ, List.drop_succ_cons]
        exact ih j m (by omega)

theorem sum_set_add (l : List Nat) (i v : Nat) (h : i < l.length) :
    (l.set i v).sum + l.getD i 0 = l.sum + v := by
  induction l generalizing i with
  | nil => simp at h
  | cons x xs ih =>
    cases i with
    | zero =>
      simp only [List.set_cons_zero, List.sum_cons, List.getD_cons_zero]
      omega
    | succ j =>
      simp only [List.set_cons_succ, List.sum_cons, List.getD_cons_succ]
      have := ih j (by simpa using h)
      omega

theorem getD_take_of_lt (l : List Nat) (i n : Nat) (h : i < n) :
    (l.take n).getD i 0 = l.getD i 0 := by
  induction l generalizing i n with
  | nil => simp
  | cons x xs ih =>
    cases n with
    | zero => omega
    | succ m =>
      cases i with
      | zero => rfl
      | succ j =>
        simp only [List.take_succ_cons, List.getD_cons_succ]
        exact ih j m (by omega)

theorem slice_zero_eq_take (l : List Nat) (b : Nat) : slice l 0 b = l.take b := by
  simp [slice]

theorem exceptBind_ok (a : List Nat) (f : List Nat → Except Failure (List Nat)) :
    (Except.ok a : Except Failure (List Nat)).bind f = f a := rfl

theorem exceptBind_error (e : Failure) (f : List Nat → Except Failure (List Nat)) :
    (Except.error e : Except Failure (List Nat)).bind f = .error e := rfl

theorem assemble_ok_length (chunks : List (List Nat)) (expectedLen : Nat)
    (acc response : List Nat)
    (h : assemble expectedLen acc chunks = .ok response) :
    response.length = expectedLen := by
  induction chunks generalizing acc with
  | nil =>
    unfold assemble at h
    split at h
    · next heq => cases h; exact heq
    · exact Except.noConfusion h
  | cons c rest ih =>
    unfold assemble at h
    split at h
    · next heq => cases h; exact heq
    · exact ih _ h

theorem assemble_ok_prefix (chunks : List (List Nat)) (expectedLen : Nat)
    (acc response : List Nat)
    (h : assemble expectedLen acc chunks = .ok response) :
    ∃ extra, response = acc ++ extra := by
  induction chunks generalizing acc with
  | nil =>
    unfold assemble at h
    split at h
    · cases h; exact ⟨[], by simp⟩
    · exact Except.noConfusion h
  | cons c rest ih =>
    unfold assemble at h
    split at h
    · cases h; exact ⟨[], by simp⟩
    · obtain ⟨extra, hx⟩ := ih _ h
      exact ⟨c ++ extra, by simp [hx]⟩

/-- Validation facts extracted from a successful single-datagram
exchange. -/
theorem executeCommand_single_ok (message response payload : List Nat)
    (h : executeCommand message [response] = .ok payload) :
    9 ≤ response.length ∧
    slice response 0 6 = expectedHeader message ∧
    response.length = 7 + response.getD 6 0 + 2 ∧
    crcCalc response = crcRecv response ∧
    payload = (response.take (response.length - 2)).drop 7 := by
  simp only [executeCommand] at h
  by_cases h9 : response.length < 9
  · rw [if_pos h9] at h
    exact Except.noConfusion h
  rw [if_neg h9] at h
  by_cases hhdr : slice response 0 6 ≠ expectedHeader message
  · rw [if_pos hhdr] at h
    exact Except.noConfusion h
  rw [if_neg hhdr] at h
  have hasm : assemble (7 + response.getD 6 0 + 2) response [] =
      if response.length = 7 + response.getD 6 0 + 2 then Except.ok response
      else Except.error Failure.incompleteResponse := by
    simp only [assemble]
  rw [hasm] at h
  by_cases hlen : response.length = 7 + response.getD 6 0 + 2
  · rw [if_pos hlen, exceptBind_ok] at h
    unfold finishResponse at h
    by_cases hcrc : crcCalc response ≠ crcRecv response
    · rw [if_pos hcrc] at h
      exact Except.noConfusion h
    rw [if_neg hcrc] at h
    cases h
    exact ⟨by omega, not_not.mp hhdr, hlen, not_not.mp hcrc, rfl⟩
  · rw [if_neg hlen, exceptBind_error] at h
    exact Except.noConfusion h

/-- C4 counterexample: for the valid response `sampleResponse` to the
identity command, tampering the single byte at position 0 (before the
final two checksum bytes) fails with `HeaderMismatch`, not
`ChecksumMismatch`. -/
theorem c4_tamper_counterexample :
    executeCommand idCommand [sampleResponse] = .ok [5] ∧
    executeCommand idCommand [sampleResponse.set 0 0] =
      .error .headerMismatch ∧
    executeCommand idCommand [sampleResponse.set 0 0] ≠
      .error .checksumMismatch := by
  refine ⟨by rfl, by rfl, ?_⟩
  intro hcontra
  have h2 : (Except.error Failure.headerMismatch : Except Failure (List Nat)) =
      Except.error Failure.checksumMismatch := hcontra
  exact Failure.noConfusion (Except.error.inj h2)

/-- C4 amended: for every response frame the codec accepts as valid and
every modification of exactly one byte at a position before the final
two checksum bytes, validation of the modified frame fails — never a
silent pass; and when the modified position lies in the payload region
(at or after offset 7) the failure is `ChecksumMismatch`.  (Modifying a
header byte 0–5 fails as `HeaderMismatch`, and modifying the length
byte 6 fails as an incomplete-response condition, as the
counterexample shows.) -/
theorem c4_tamper_detected (message response payload : List Nat)
    (hok : executeCommand message [response] = .ok payload)
    (i v : Nat) (hi : i < response.length - 2) (hv : v ≠ response.getD i 0) :
    (∃ e, executeCommand message [response.set i v] = .error e) ∧
    (7 ≤ i →
      executeCommand message [response.set i v] = .error .checksumMismatch) := by
  obtain ⟨h9, hhdr, hlen, hcrc, -⟩ :=
    executeCommand_single_ok message response payload hok
  have hL : (response.set i v).length = response.length := by simp
  have hcs : 7 ≤ i →
      executeCommand message [response.set i v] = .error .checksumMismatch := by
    intro h7
    have hhdr2 : slice (response.set i v) 0 6 = expectedHeader message := by
      rw [slice_zero_eq_take, take_set_comm,
        List.set_eq_of_length_le (by rw [List.length_take]; omega),
        ← slice_zero_eq_take, hhdr]
    have hg6 : (response.set i v).getD 6 0 = response.getD 6 0 :=
      getD_set_ne response i 6 v (by omega)
    have hasm : assemble (7 + (response.set i v).getD 6 0 + 2)
        (response.set i v) [] = Except.ok (response.set i v) := by
      simp only [assemble]
      rw [if_pos (by rw [hL, hg6]; exact hlen)]
    have htake : (response.set i v).take ((response.set i v).length - 2) =
        (response.take (response.length - 2)).set i v := by
      rw [hL, take_set_comm]
    have hdrop : (response.set i v).drop ((response.set i v).length - 2) =
        response.drop (response.length - 2) := by
      rw [hL]
      exact drop_set_of_lt response i _ v (by omega)
    have hsum := sum_set_add (response.take (response.length - 2)) i v
      (by rw [List.length_take]; omega)
    have hgt : (response.take (response.length - 2)).getD i 0 =
        response.getD i 0 := getD_take_of_lt response i _ (by omega)
    have hcrcne : crcCalc (response.set i v) ≠ crcRecv (response.set i v) := by
      unfold crcCalc crcRecv
      rw [htake, hdrop]
      intro heq
      have hc := hcrc
      unfold crcCalc crcRecv at hc
      rw [hgt] at hsum
      omega
    simp only [executeCommand]
    rw [if_neg (show ¬(response.set i v).length < 9 by rw [hL]; omega),
      if_neg (not_not_intro hhdr2), hasm, exceptBind_ok]
    unfold finishResponse
    rw [if_pos hcrcne]
  refine ⟨?_, hcs⟩
  rcases lt_trichotomy i 6 with h6 | h6 | h6
  · refine ⟨.headerMismatch, ?_⟩
    have hhdrne : slice (response.set i v) 0 6 ≠ expectedHeader message := by
      rw [slice_zero_eq_take, take_set_comm]
      intro heq
      have heq2 : (response.take 6).set i v = response.take 6 := by
        rw [heq, ← hhdr, slice_zero_eq_take]
      have h1 : ((response.take 6).set i v).getD i 0 = v :=
        getD_set_self _ i v (by rw [List.length_take]; omega)
      rw [heq2, getD_take_of_lt response i 6 h6] at h1
      exact hv h1.symm
    simp only [executeCommand]
    rw [if_neg (show ¬(response.set i v).length < 9 by rw [hL]; omega),
      if_pos hhdrne]
  · subst h6
    refine ⟨.incompleteResponse, ?_⟩
    have hhdr2 : slice (response.set 6 v) 0 6 = expectedHeader message := by
      rw [slice_zero_eq_take, take_set_comm,
        List.set_eq_of_length_le (by rw [List.length_take]; omega),
        ← slice_zero_eq_take, hhdr]
    have hg6 : (response.set 6 v).getD 6 0 = v :=
      getD_set_self response 6 v (by omega)
    have hasm : assemble (7 + (response.set 6 v).getD 6 0 + 2)
        (response.set 6 v) [] = Except.error Failure.incompleteResponse := by
      simp only [assemble]
      rw [if_neg (by rw [hL, hg6]; omega)]
    simp only [executeCommand]
    rw [if_neg (show ¬(response.set 6 v).length < 9 by rw [hL]; omega),
      if_neg (not_not_intro hhdr2), hasm, exceptBind_error]
  · exact ⟨.checksumMismatch, hcs (by omega)⟩

/-- C4 witness: tampering payload byte 7 of the concrete valid response
yields `ChecksumMismatch`. -/
theorem c4_tamper_detected_witness :
    (∃ e, executeCommand idCommand [sampleResponse.set 7 6] = .error e) ∧
    (7 ≤ 7 →
      executeCommand idCommand [sampleResponse.set 7 6] =
        .error .checksumMismatch) :=
  c4_tamper_detected idCommand sampleResponse [5] (by rfl) 7 6 (by decide)
    (by decide)

/-- C10: whenever `_execute_aa55_command` returns a payload
successfully, the assembled response has total length exactly
`7 + payload_length + 2` where `payload_length` is the byte at offset 6
of the response, and the returned payload has exactly that length; an
over-long accumulated response can never yield a successful return. -/
theorem c10_success_exact_length (message : List Nat)
    (chunks : List (List Nat)) (payload : List Nat)
    (h : executeCommand message chunks = .ok payload) :
    ∃ c0 rest response, chunks = c0 :: rest ∧
      assemble (7 + c0.getD 6 0 + 2) c0 rest = .ok response ∧
      response.length = 7 + response.getD 6 0 + 2 ∧
      payload.length = response.getD 6 0 ∧
      payload = (response.take (response.length - 2)).drop 7 := by
  cases chunks with
  | nil => exact Except.noConfusion h
  | cons c0 rest =>
    refine ⟨c0, rest, ?_⟩
    simp only [executeCommand] at h
    by_cases h9 : c0.length < 9
    · rw [if_pos h9] at h
      exact Except.noConfusion h
    rw [if_neg h9] at h
    by_cases hhdr : slice c0 0 6 ≠ expectedHeader message
    · rw [if_pos hhdr] at h
      exact Except.noConfusion h
    rw [if_neg hhdr] at h
    cases ha : assemble (7 + c0.getD 6 0 + 2) c0 rest with
    | error e =>
      rw [ha, exceptBind_error] at h
      exact Except.noConfusion h
    | ok response =>
      rw [ha, exceptBind_ok] at h
      unfold finishResponse at h
      by_cases hcrc : crcCalc response ≠ crcRecv response
      · rw [if_pos hcrc] at h
        exact Except.noConfusion h
      rw [if_neg hcrc] at h
      cases h
      have hlen := assemble_ok_length rest _ c0 response ha
      obtain ⟨extra, hpre⟩ := assemble_ok_prefix rest _ c0 response ha
      have h6 : response.getD 6 0 = c0.getD 6 0 := by
        rw [hpre]
        exact List.getD_append _ _ _ _ (by omega)
      have hplen : ((response.take (response.length - 2)).drop 7).length =
          response.getD 6 0 := by
        simp only [List.length_drop, List.length_take]
        omega
      exact ⟨response, rfl, ha ▸ rfl, by omega, hplen, rfl⟩

/-- C10 witness: a concrete successful exchange instantiates the
theorem. -/
theorem c10_success_exact_length_witness :
    ∃ c0 rest response,
      ([sampleResponse] : List (List Nat)) = c0 :: rest ∧
      assemble (7 + c0.getD 6 0 + 2) c0 rest = .ok response ∧
      response.length = 7 + response.getD 6 0 + 2 ∧
      ([5] : List Nat).length = response.getD 6 0 ∧
      ([5] : List Nat) = (response.take (response.length - 2)).drop 7 :=
  c10_success_exact_length idCommand [sampleResponse] [5] (by rfl)

/-- C1: the claim says every transport/codec failure raised during the
fetch propagates, classified, to `get_running_info`'s caller.  The code
does the opposite at every failing input: whatever classified failure
`_query_running_info` raises, the bare `except:` clause of
`Inverter.get_running_info` swallows it and the call returns `None`
normally — no exception reaches the caller (in particular the
coordinator's `except RequestFailedException` handler is
unreachable). -/
theorem c1_fetch_failure_swallowed :
    ∀ e : Failure, get_running_info (.error e) = .ok none := by
  intro e
  rfl

/-- C5 counterexample: decoding the canned running-info payload yields
`work_mode = 1` and `pac = 137`, refuting the claimed
`work_mode = 0` and `pac = 241`. -/
theorem c5_canned_decode_counterexample :
    (queryRunningInfoParse cannedRunningPayload).work_mode = 1 ∧
    (queryRunningInfoParse cannedRunningPayload).pac = 137 ∧
    ¬((queryRunningInfoParse cannedRunningPayload).work_mode = 0 ∧
      (queryRunningInfoParse cannedRunningPayload).pac = 241) := by
  refine ⟨by decide, by decide, ?_⟩
  intro h
  exact absurd h.1 (by decide)

/-- C7 counterexample: decoding the canned identity payload yields the
serial number `"51500SSX211W0413"` (16 characters), not the claimed
`"5150SSX211W0413"`. -/
theorem c7_canned_serial_counterexample :
    (queryIdInfoParse cannedIdPayload).2 = "51500SSX211W0413" ∧
    (queryIdInfoParse cannedIdPayload).2 ≠ "5150SSX211W0413" := by
  constructor
  · decide
  · decide

/-- A `take` of at least `w` elements enumerates the `getD` reads at
offsets `0..w-1`. -/
theorem take_eq_range_getD (w : Nat) (l : List Nat) (h : w ≤ l.length) :
    l.take w = (List.range w).map (fun i => l.getD i 0) := by
  induction w generalizing l with
  | zero => simp
  | succ n ih =>
    cases l with
    | nil => simp at h
    | cons x xs =>
      rw [List.range_succ_eq_map]
      simp only [List.take_succ_cons, List.map_cons, List.map_map]
      refine congrArg₂ _ rfl ?_
      rw [ih xs (by simpa using h)]
      rfl

/-- A Python slice `l[a:a+w]` inside the list enumerates the `getD`
reads at offsets `a..a+w-1`. -/
theorem slice_eq_range_getD (a : Nat) (l : List Nat) (w : Nat)
    (h : a + w ≤ l.length) :
    slice l a (a + w) = (List.range w).map (fun i => l.getD (a + i) 0) := by
  induction a generalizing l with
  | zero =>
    simp only [slice, Nat.zero_add, List.drop_zero]
    exact take_eq_range_getD w l (by omega)
  | succ n ih =>
    cases l with
    | nil => simp at h
    | cons x xs =>
      have hx : slice (x :: xs) (n + 1) (n + 1 + w) = slice xs n (n + w) := by
        simp only [slice]
        rw [show n + 1 + w = (n + w) + 1 from by omega, List.take_succ_cons,
          List.drop_succ_cons]
      rw [hx, ih xs (by simp only [List.length_cons] at h; omega)]
      refine List.map_congr_left ?_
      intro i _
      rw [show n + 1 + i = (n + i) + 1 from by omega]
      rfl

/-- C6: for every supported command message (the identity query and the
running-info query), the expected 6-byte response header computed by
`_execute_aa55_command` equals the spec transformation: sync marker
kept, destination/source address bytes swapped, control byte kept,
function-code byte with its high bit set. -/
theorem c6_expected_header (message : List Nat)
    (h : message = idCommand ∨ message = runningCommand) :
    expectedHeader message = specResponseHeader message := by
  rcases h with rfl | rfl
  · decide
  · decide

/-- C6 witness: the identity command instantiates the theorem. -/
theorem c6_expected_header_witness :
    expectedHeader idCommand = specResponseHeader idCommand :=
  c6_expected_header idCommand (Or.inl rfl)

/-- C5 amended: decoding the canned running-info payload yields
`work_mode = 1`, `pac = 137` and `e_today = 0.0`, and for every payload
long enough to hold them, every decoded field equals the big-endian
integer read at the byte offsets of the §4.3 divisor table divided by
that table's divisor. -/
theorem c5_running_decode :
    queryRunningInfoParse cannedRunningPayload =
      { work_mode := 1, pac := 137, e_today := 0, e_total := 31376 / 10,
        l1_voltage := 2381 / 10, l1_frequency := 5004 / 100,
        temperature := 241 / 10, running_hours := 7164 } ∧
    ∀ payload : List Nat, 46 ≤ payload.length →
      queryRunningInfoParse payload = divisorTableParse payload := by
  constructor
  · have e1 : bigEndianNat (slice cannedRunningPayload 8 10) = 2381 := by rfl
    have e2 : bigEndianNat (slice cannedRunningPayload 12 14) = 5004 := by rfl
    have e3 : bigEndianNat (slice cannedRunningPayload 14 16) = 137 := by rfl
    have e4 : bigEndianNat (slice cannedRunningPayload 16 18) = 1 := by rfl
    have e5 : bigEndianNat (slice cannedRunningPayload 18 20) = 241 := by rfl
    have e6 : bigEndianNat (slice cannedRunningPayload 24 28) = 31376 := by rfl
    have e7 : bigEndianNat (slice cannedRunningPayload 30 32) = 7164 := by rfl
    have e8 : bigEndianNat (slice cannedRunningPayload 44 46) = 0 := by rfl
    unfold queryRunningInfoParse
    rw [e1, e2, e3, e4, e5, e6, e7, e8]
    simp only [RunInfo.mk.injEq]
    norm_num
  intro p hp
  have h8 : slice p 8 10 = (List.range 2).map (fun i => p.getD (8 + i) 0) :=
    slice_eq_range_getD 8 p 2 (by omega)
  have h12 : slice p 12 14 = (List.range 2).map (fun i => p.getD (12 + i) 0) :=
    slice_eq_range_getD 12 p 2 (by omega)
  have h14 : slice p 14 16 = (List.range 2).map (fun i => p.getD (14 + i) 0) :=
    slice_eq_range_getD 14 p 2 (by omega)
  have h16 : slice p 16 18 = (List.range 2).map (fun i => p.getD (16 + i) 0) :=
    slice_eq_range_getD 16 p 2 (by omega)
  have h18 : slice p 18 20 = (List.range 2).map (fun i => p.getD (18 + i) 0) :=
    slice_eq_range_getD 18 p 2 (by omega)
  have h24 : slice p 24 28 = (List.range 4).map (fun i => p.getD (24 + i) 0) :=
    slice_eq_range_getD 24 p 4 (by omega)
  have h30 : slice p 30 32 = (List.range 2).map (fun i => p.getD (30 + i) 0) :=
    slice_eq_range_getD 30 p 2 (by omega)
  have h44 : slice p 44 46 = (List.range 2).map (fun i => p.getD (44 + i) 0) :=
    slice_eq_range_getD 44 p 2 (by omega)
  unfold queryRunningInfoParse divisorTableParse beAt
  rw [h8, h12, h14, h16, h18, h24, h30, h44]

/-- C5 witness: the canned payload is long enough, and the divisor-table
reading agrees with the code's decoder on it. -/
theorem c5_running_decode_witness :
    queryRunningInfoParse cannedRunningPayload =
      divisorTableParse cannedRunningPayload :=
  c5_running_decode.2 cannedRunningPayload (by decide)

/-- C7 amended: decoding the canned identity payload yields model
`"GW1500-XS"` (ASCII at payload bytes [5,15), right-trimmed) and serial
`"51500SSX211W0413"` (ASCII at payload bytes [31,47), right-trimmed). -/
theorem c7_canned_identity_decode :
    queryIdInfoParse cannedIdPayload = ("GW1500-XS", "51500SSX211W0413") := by
  decide

theorem asyncUpdateData_success (st : CoordState) (snap : Dict) :
    asyncUpdateData st (.success snap) =
      { data := some snap, lastData := nextLastData st, failures := 0 } := rfl

theorem asyncUpdateData_transient (st : CoordState) (e : Failure) :
    asyncUpdateData st (.transient e) =
      if st.failures + 1 < 3 then
        { data := some (nextLastData st), lastData := nextLastData st,
          failures := st.failures + 1 }
      else
        { data := some (syntheticOffline (nextLastData st)),
          lastData := nextLastData st, failures := st.failures + 1 } := rfl

theorem nextLastData_some (d l : Dict) (n : Nat) (hd : d.truthy = true) :
    nextLastData { data := some d, lastData := l, failures := n } = d := by
  simp [nextLastData, hd]

theorem syntheticOffline_truthy (d : Dict) :
    (syntheticOffline d).truthy = true := rfl

theorem syntheticOffline_idem (d : Dict) :
    syntheticOffline (syntheticOffline d) = syntheticOffline d := rfl

theorem runInfoDict_truthy (ws : String) (info : RunInfo) :
    (runInfoDict ws info).truthy = true := rfl

theorem stepTransient_lt (d l : Dict) (n : Nat) (hd : d.truthy = true)
    (hn : n + 1 < 3) :
    asyncUpdateData { data := some d, lastData := l, failures := n }
        (.transient .connectionTimeout) =
      { data := some d, lastData := d, failures := n + 1 } := by
  rw [asyncUpdateData_transient]
  simp only [nextLastData_some d l n hd]
  rw [if_pos hn]

theorem stepTransient_ge (d l : Dict) (n : Nat) (hd : d.truthy = true)
    (hn : ¬n + 1 < 3) :
    asyncUpdateData { data := some d, lastData := l, failures := n }
        (.transient .connectionTimeout) =
      { data := some (syntheticOffline d), lastData := d, failures := n + 1 } := by
  rw [asyncUpdateData_transient]
  simp only [nextLastData_some d l n hd]
  rw [if_neg hn]

theorem iterTransient_synthetic (d last : Dict) (m k : Nat) (hm : 3 ≤ m) :
    (iterTransient
      { data := some (syntheticOffline d), lastData := last, failures := m }
      k).data = some (syntheticOffline d) := by
  induction k generalizing last m with
  | zero => rfl
  | succ n ih =>
    show (iterTransient (asyncUpdateData _ _) n).data = _
    rw [stepTransient_ge (syntheticOffline d) last m (syntheticOffline_truthy d)
      (by omega), syntheticOffline_idem]
    exact ih (syntheticOffline d) (m + 1) (by omega)

theorem iterTransient_after_success (D L0 : Dict) (hd : D.truthy = true)
    (k : Nat) :
    (k ≤ 2 →
      (iterTransient { data := some D, lastData := L0, failures := 0 } k).data =
        some D) ∧
    (3 ≤ k →
      (iterTransient { data := some D, lastData := L0, failures := 0 } k).data =
        some (syntheticOffline D)) := by
  have e1 : asyncUpdateData { data := some D, lastData := L0, failures := 0 }
      (.transient .connectionTimeout) =
      { data := some D, lastData := D, failures := 1 } :=
    stepTransient_lt D L0 0 hd (by omega)
  have e2 : asyncUpdateData { data := some D, lastData := D, failures := 1 }
      (.transient .connectionTimeout) =
      { data := some D, lastData := D, failures := 2 } :=
    stepTransient_lt D D 1 hd (by omega)
  have e3 : asyncUpdateData { data := some D, lastData := D, failures := 2 }
      (.transient .connectionTimeout) =
      { data := some (syntheticOffline D), lastData := D, failures := 3 } :=
    stepTransient_ge D D 2 hd (by omega)
  constructor
  · intro hk
    interval_cases k
    · rfl
    · show (iterTransient (asyncUpdateData _ _) 0).data = _
      rw [e1]
      rfl
    · show (iterTransient (asyncUpdateData _ _) 1).data = _
      rw [e1]
      show (iterTransient (asyncUpdateData _ _) 0).data = _
      rw [e2]
      rfl
  · intro hk
    obtain ⟨j, rfl⟩ : ∃ j, k = j + 3 := ⟨k - 3, by omega⟩
    show (iterTransient (asyncUpdateData _ _) (j + 2)).data = _
    rw [e1]
    show (iterTransient (asyncUpdateData _ _) (j + 1)).data = _
    rw [e2]
    show (iterTransient (asyncUpdateData _ _) j).data = _
    rw [e3]
    exact iterTransient_synthetic D D 3 j (by omega)

/-- C2: the poll state's consecutive-failure counter is non-negative,
is reset to 0 by any successful fetch, is incremented by exactly 1 by
each transient failure, and never decreases except via the reset to 0
on success. -/
theorem c2_failure_streak_counter (rs : List FetchResult) (r : FetchResult) :
    0 ≤ (pollRun rs).consecutiveFailureCount ∧
    (∀ snap, (pollStep (pollRun rs) (.success snap)).consecutiveFailureCount
      = 0) ∧
    (∀ e, (pollStep (pollRun rs) (.transient e)).consecutiveFailureCount =
      (pollRun rs).consecutiveFailureCount + 1) ∧
    ((pollStep (pollRun rs) r).consecutiveFailureCount <
        (pollRun rs).consecutiveFailureCount →
      (pollStep (pollRun rs) r).consecutiveFailureCount = 0 ∧
      ∃ snap, r = .success snap) := by
  have hnn : ∀ (l : List FetchResult) (s : PollState),
      0 ≤ s.consecutiveFailureCount →
      0 ≤ (l.foldl pollStep s).consecutiveFailureCount := by
    intro l
    induction l with
    | nil => intro s hs; exact hs
    | cons x xs ih =>
      intro s hs
      refine ih (pollStep s x) ?_
      cases x with
      | success snap => simp [pollStep]
      | transient e => simp only [pollStep]; omega
      | hard => exact hs
  have h0 : 0 ≤ (pollRun rs).consecutiveFailureCount :=
    hnn rs initPollState (by simp [initPollState])
  refine ⟨h0, fun snap => rfl, fun e => rfl, ?_⟩
  intro hdec
  cases r with
  | success snap => exact ⟨rfl, snap, rfl⟩
  | transient e => simp only [pollStep] at hdec; omega
  | hard => simp only [pollStep] at hdec; omega

/-- C2 witness: after a success followed by one transient failure, a
further success resets the streak from 1 to 0. -/
theorem c2_failure_streak_counter_witness :
    (pollStep (pollRun [FetchResult.success emptyDict,
        FetchResult.transient .connectionTimeout])
      (.success emptyDict)).consecutiveFailureCount = 0 ∧
    ∃ snap, (FetchResult.success emptyDict) = FetchResult.success snap :=
  (c2_failure_streak_counter
    [FetchResult.success emptyDict, FetchResult.transient .connectionTimeout]
    (.success emptyDict)).2.2.2 (by decide)

/-- C3: following a successful fetch, a run of consecutive transient
failures publishes the previous snapshot unchanged on the 1st and 2nd
failure, and the synthetic offline snapshot (`work_mode = Offline`,
`pac = 0`, null voltage/frequency/temperature, `e_today`/`e_total`/
`running_hours` from the last successful fetch) on the 3rd and every
subsequent failure. -/
theorem c3_streak_publishing (st0 : CoordState) (ws : String) (info : RunInfo)
    (k : Nat) :
    (1 ≤ k → k ≤ 2 →
      (iterTransient (asyncUpdateData st0
        (.success (runInfoDict ws info))) k).data =
        some (runInfoDict ws info)) ∧
    (3 ≤ k →
      (iterTransient (asyncUpdateData st0
        (.success (runInfoDict ws info))) k).data =
        some (syntheticOffline (runInfoDict ws info))) ∧
    syntheticOffline (runInfoDict ws info) =
      { work_mode := some (.str "Offline"), pac := some (.num 0),
        e_today := some (.num info.e_today),
        e_total := some (.num info.e_total),
        l1_voltage := none, l1_frequency := none, temperature := none,
        running_hours := some (.num info.running_hours) } := by
  have h := iterTransient_after_success (runInfoDict ws info)
    (nextLastData st0) (runInfoDict_truthy ws info) k
  rw [asyncUpdateData_success]
  exact ⟨fun _ h2 => h.1 h2, h.2, rfl⟩

/-- C3 witness: the concrete 2-failure and 3-failure runs after a
concrete success instantiate both regimes. -/
theorem c3_streak_publishing_witness :
    (iterTransient (asyncUpdateData initCoordState
      (.success (runInfoDict "Online" sampleInfo))) 2).data =
      some (runInfoDict "Online" sampleInfo) ∧
    (iterTransient (asyncUpdateData initCoordState
      (.success (runInfoDict "Online" sampleInfo))) 3).data =
      some (syntheticOffline (runInfoDict "Online" sampleInfo)) :=
  ⟨(c3_streak_publishing initCoordState "Online" sampleInfo 2).1
      (by omega) (by omega),
   (c3_streak_publishing initCoordState "Online" sampleInfo 3).2.1 (by omega)⟩

theorem totalSensorValue_truthy (data lastData : Dict) (f : Field)
    (h : truthyVal (data.get f) = true) :
    totalSensorValue data lastData f = data.get f := by
  simp only [totalSensorValue]
  rw [if_pos h]

/-- C8 counterexample: after a success reporting `e_total = 5`, a later
success reporting `e_total = 0` followed by a single transient failure
makes the total accessor report 0. -/
theorem c8_total_zero_counterexample :
    (runCycles initCoordState
        [FetchResult.success (runInfoDict "Online" sampleInfo),
         FetchResult.success (runInfoDict "Waiting" zeroRunInfo),
         FetchResult.transient .connectionTimeout]) =
      { data := some (runInfoDict "Waiting" zeroRunInfo),
        lastData := runInfoDict "Waiting" zeroRunInfo, failures := 1 } ∧
    (runInfoDict "Online" sampleInfo).get .e_total = some (.num 5) ∧
    totalSensorValue (runInfoDict "Waiting" zeroRunInfo)
      (runInfoDict "Waiting" zeroRunInfo) .e_total = some (.num 0) := by
  refine ⟨?_, rfl, ?_⟩
  · rfl
  · rfl

/-- C8 amended: once a successful fetch has reported a nonzero
`e_total` and only transient failures occur afterwards (the claimed
regime), the total accessor keeps returning that nonzero value, for
any number of failures. -/
theorem c8_total_nonzero_after_failures (st0 : CoordState) (ws : String)
    (info : RunInfo) (hz : info.e_total ≠ 0) (k : Nat) :
    ∃ d,
      (iterTransient (asyncUpdateData st0
        (.success (runInfoDict ws info))) k).data = some d ∧
      totalSensorValue d
        (iterTransient (asyncUpdateData st0
          (.success (runInfoDict ws info))) k).lastData .e_total =
        some (.num info.e_total) := by
  have h := iterTransient_after_success (runInfoDict ws info)
    (nextLastData st0) (runInfoDict_truthy ws info) k
  have htv : truthyVal (some (Val.num info.e_total)) = true := by
    simp [truthyVal, hz]
  rw [asyncUpdateData_success]
  by_cases hk : k ≤ 2
  · refine ⟨runInfoDict ws info, h.1 hk, ?_⟩
    have hg : (runInfoDict ws info).get .e_total =
        some (.num info.e_total) := rfl
    rw [totalSensorValue_truthy _ _ _ (by rw [hg]; exact htv), hg]
  · refine ⟨syntheticOffline (runInfoDict ws info), h.2 (by omega), ?_⟩
    have hg : (syntheticOffline (runInfoDict ws info)).get .e_total =
        some (.num info.e_total) := rfl
    rw [totalSensorValue_truthy _ _ _ (by rw [hg]; exact htv), hg]

/-- C8 witness: the concrete nonzero success followed by 4 transient
failures instantiates the theorem. -/
theorem c8_total_nonzero_after_failures_witness :
    ∃ d,
      (iterTransient (asyncUpdateData initCoordState
        (.success (runInfoDict "Online" sampleInfo))) 4).data = some d ∧
      totalSensorValue d
        (iterTransient (asyncUpdateData initCoordState
          (.success (runInfoDict "Online" sampleInfo))) 4).lastData .e_total =
        some (.num sampleInfo.e_total) :=
  c8_total_nonzero_after_failures initCoordState "Online" sampleInfo
    (by norm_num [sampleInfo]) 4

theorem get_set_self_dict (d : Dict) (f : Field) (v : Option Val) :
    (d.set f v).get f = v := by
  cases f <;> rfl

theorem get_set_ne_dict (d : Dict) (f g : Field) (v : Option Val)
    (h : g ≠ f) : (d.set f v).get g = d.get g := by
  cases f <;> cases g <;> first | rfl | exact absurd rfl h

/-- C9: invoking the reset operation on a field sets both the live
published value and the cached last-known value of that field to 0 and
leaves every other field's live and cached values unchanged. -/
theorem c9_reset_sensor (st : CoordState) (f g : Field) (d : Dict)
    (hd : st.data = some d) (hg : g ≠ f) :
    ∃ st2, resetSensor st f = some st2 ∧
      st2.data = some (d.set f (some (.num 0))) ∧
      (d.set f (some (.num 0))).get f = some (.num 0) ∧
      st2.lastData.get f = some (.num 0) ∧
      (d.set f (some (.num 0))).get g = d.get g ∧
      st2.lastData.get g = st.lastData.get g := by
  refine ⟨⟨some (d.set f (some (.num 0))),
      st.lastData.set f (some (.num 0)), st.failures⟩, ?_, rfl,
    get_set_self_dict d f _, get_set_self_dict st.lastData f _,
    get_set_ne_dict d f g _ hg, get_set_ne_dict st.lastData f g _ hg⟩
  simp only [resetSensor, hd]

/-- C9 witness: resetting `e_today` on a concrete state instantiates
the theorem (with `e_total` as the untouched other field). -/
theorem c9_reset_sensor_witness :
    ∃ st2,
      resetSensor
        { data := some emptyDict, lastData := emptyDict, failures := 0 }
        .e_today = some st2 ∧
      st2.data = some (emptyDict.set .e_today (some (.num 0))) ∧
      (emptyDict.set .e_today (some (.num 0))).get .e_today =
        some (.num 0) ∧
      st2.lastData.get .e_today = some (.num 0) ∧
      (emptyDict.set .e_today (some (.num 0))).get .e_total =
        emptyDict.get .e_total ∧
      st2.lastData.get .e_total =
        ({ data := some emptyDict, lastData := emptyDict,
           failures := 0 } : CoordState).lastData.get .e_total :=
  c9_reset_sensor
    { data := some emptyDict, lastData := emptyDict, failures := 0 }
    .e_today .e_total emptyDict rfl (by decide)

end AA55
